import Mathlib

/-!
Verification of the ManaCore RL-orchestration layer (python-gym package).

Shallow embedding of the parts of the code the claims are about:
  * `manacore_gym/training/curriculum.py` — `CurriculumScheduler`
    (`record_game`, `get_win_rate`, `should_advance`, `advance`, `is_complete`);
  * `manacore_gym/selfplay.py` — `SelfPlayEnv`
    (`add_checkpoint`, `_select_opponent`, `_get_opponent_action`,
    `_handle_opponent_priority`, `step`, `_get_observation`);
  * `manacore_gym/env.py` — `ManaCoreBattleEnv` (`step`, `_get_observation`).

Python floats are modelled as rationals (`ℚ`); non-finite float values
(NaN, +Inf, -Inf), which matter only for observation sanitization, are
modelled by the inductive `FVal`.  The remote HTTP bridge is modelled by
oracle functions / scripted response lists passed in explicitly.
-/

namespace ManaCore

/-! ### Curriculum scheduler (`training/curriculum.py`) -/

/-- Mirror of the `CurriculumStage` dataclass (curriculum.py lines 12-21). -/
structure CurriculumStage where
  name : String
  opponent : String
  timesteps : Nat
  targetWinRate : ℚ
  minGamesToAdvance : Nat
  stageDescription : String

instance : Inhabited CurriculumStage :=
  ⟨⟨"", "", 0, 0, 100, ""⟩⟩

/-- State of a `CurriculumScheduler` instance (curriculum.py lines 89-112):
the stage list, current stage index, per-stage counters, the rolling window
`_recent_results` with `_window_size`, and whether `on_stage_change` is set
(the callback itself is opaque; we track only whether it would be invoked). -/
structure CurriculumState where
  curriculum : List CurriculumStage
  currentStageIdx : Nat
  hasCallback : Bool
  stageWins : List Nat
  stageGames : List Nat
  stageTimesteps : List Nat
  recentResults : List Bool
  windowSize : Nat

/-- Mirror of `CurriculumScheduler.__init__` (curriculum.py lines 89-112). -/
def initScheduler (curriculum : List CurriculumStage) (hasCallback : Bool) :
    CurriculumState :=
  { curriculum := curriculum
    currentStageIdx := 0
    hasCallback := hasCallback
    stageWins := List.replicate curriculum.length 0
    stageGames := List.replicate curriculum.length 0
    stageTimesteps := List.replicate curriculum.length 0
    recentResults := []
    windowSize := 100 }

/-- Mirror of the `is_complete` property (curriculum.py lines 119-122):
`current_stage_idx >= len(curriculum)`. -/
def isComplete (s : CurriculumState) : Bool :=
  s.curriculum.length ≤ s.currentStageIdx

/-- Mirror of `record_game` (curriculum.py lines 134-154): early return when
complete; otherwise bump the active stage counters, append to the rolling
window and pop its head when the window exceeds `_window_size`. -/
def recordGame (s : CurriculumState) (won : Bool) (timesteps : Nat) :
    CurriculumState :=
  if isComplete s then s
  else
    let idx := s.currentStageIdx
    let appended := s.recentResults ++ [won]
    { s with
      stageWins :=
        if won then s.stageWins.set idx (s.stageWins.getD idx 0 + 1)
        else s.stageWins
      stageGames := s.stageGames.set idx (s.stageGames.getD idx 0 + 1)
      stageTimesteps :=
        s.stageTimesteps.set idx (s.stageTimesteps.getD idx 0 + timesteps)
      recentResults :=
        if s.windowSize < appended.length then appended.tail else appended }

/-- Mirror of `get_win_rate` (curriculum.py lines 156-175).  `window = some w`
is the `_recent_results[-window:]` path (the Python slice with `w > 0` keeps
the last `min(w, len)` elements, i.e. drops `len - w`); `window = none` uses
the active stage's lifetime counters.  Division is exact over `ℚ`. -/
def getWinRate (s : CurriculumState) (window : Option Nat) : ℚ :=
  match window with
  | some w =>
    let results := s.recentResults.drop (s.recentResults.length - w)
    if results.length = 0 then 0
    else (results.countP (· = true) : ℚ) / (results.length : ℚ)
  | none =>
    let idx := s.currentStageIdx
    if s.stageGames.getD idx 0 = 0 then 0
    else (s.stageWins.getD idx 0 : ℚ) / (s.stageGames.getD idx 0 : ℚ)

/-- Mirror of `should_advance` (curriculum.py lines 177-197): false when
complete; false when the active stage's game count is below
`min_games_to_advance`; otherwise compares the win rate over the last 50
results against the stage's `target_win_rate`. -/
def shouldAdvance (s : CurriculumState) : Bool :=
  if isComplete s then false
  else
    let stage := s.curriculum.getD s.currentStageIdx default
    let games := s.stageGames.getD s.currentStageIdx 0
    if games < stage.minGamesToAdvance then false
    else decide (stage.targetWinRate ≤ getWinRate s (some 50))

/-- Result of `advance`: the new scheduler state, the returned boolean, and
whether the `on_stage_change` callback was invoked during the call. -/
structure AdvanceResult where
  state : CurriculumState
  advanced : Bool
  callbackInvoked : Bool

/-- Mirror of `advance` (curriculum.py lines 199-216).  The Python guard is
`current_stage_idx >= len(curriculum) - 1` over ints; over `Nat` the
truncated subtraction agrees with it (for `len = 0` both accept every
index).  In the guard branch only the index moves to `len(curriculum)`;
the window is cleared and the callback fires only in the other branch. -/
def advance (s : CurriculumState) : AdvanceResult :=
  if s.curriculum.length - 1 ≤ s.currentStageIdx then
    ⟨{ s with currentStageIdx := s.curriculum.length }, false, false⟩
  else
    ⟨{ s with
        currentStageIdx := s.currentStageIdx + 1
        recentResults := [] },
      true, s.hasCallback⟩

/-! ### Checkpoint pool (`selfplay.py`, `add_checkpoint`) -/

/-- Mirror of the `while len(self.checkpoint_pool) > self.pool_size:
self.checkpoint_pool.pop(0)` loop (selfplay.py lines 157-160). -/
def evictOldest (poolSize : Nat) : List String → List String
  | [] => []
  | p :: ps =>
    if poolSize < (p :: ps).length then evictOldest poolSize ps else p :: ps

/-- Mirror of `SelfPlayEnv.add_checkpoint` (selfplay.py lines 145-162).
The filesystem is an oracle `fileExists`; a missing file returns the pool
unchanged, otherwise the path is appended and the oldest entries evicted. -/
def addCheckpoint (fileExists : String → Bool) (poolSize : Nat)
    (pool : List String) (path : String) : List String :=
  if fileExists path = false then pool
  else evictOldest poolSize (pool ++ [path])

/-! ### Opponent selection (`selfplay.py`, `_select_opponent`) -/

/-- The four opponent categories of `_select_opponent` (selfplay.py line
101): `checkpoint`, `greedy` (engine-native), `current` (live policy),
`random`. -/
inductive OpponentType where
  | checkpoint
  | greedy
  | current
  | random
deriving DecidableEq

/-- Outcome of `_select_opponent`: the chosen `_current_opponent_type` and
the `_use_server_opponent` flag. -/
structure OppSelection where
  opponentType : OpponentType
  useServerOpponent : Bool
deriving DecidableEq

/-- Mirror of `SelfPlayEnv._select_opponent` (selfplay.py lines 168-232).
Inputs model the environment at call time: `sb3Available` is whether
`from sb3_contrib import MaskablePPO` succeeds (the `except ImportError`
branch returns greedy immediately); `poolLen` is `len(self.checkpoint_pool)`;
the four weights are the configured weights; `currentModelSet` is
`self._current_model is not None`; `roll01` is `random.random()` (in
`[0,1)`); `loadSucceeds` is whether `MaskablePPO.load` succeeds on the
drawn checkpoint (load failure falls back to greedy for this episode).
The cumulative-weight walk over the dict in insertion order
(checkpoint, greedy, current, random) is written as the equivalent chain
of interval tests. -/
def selectOpponent (sb3Available : Bool) (poolLen : Nat)
    (checkpointWeight greedyWeight currentWeight randomWeight : ℚ)
    (currentModelSet : Bool) (roll01 : ℚ) (loadSucceeds : Bool) :
    OppSelection :=
  if sb3Available = false then ⟨.greedy, true⟩
  else
    let wCheckpoint : ℚ := if 0 < poolLen then checkpointWeight else 0
    let wGreedy : ℚ := greedyWeight
    let wCurrent : ℚ := if currentModelSet then currentWeight else 0
    let wRandom : ℚ := randomWeight
    let total : ℚ := wCheckpoint + wGreedy + wCurrent + wRandom
    if total = 0 then ⟨.greedy, true⟩
    else
      let roll := roll01 * total
      if roll < wCheckpoint then
        if loadSucceeds then ⟨.checkpoint, false⟩ else ⟨.greedy, true⟩
      else if roll < wCheckpoint + wGreedy then ⟨.greedy, true⟩
      else if roll < wCheckpoint + wGreedy + wCurrent then ⟨.current, false⟩
      else if roll < wCheckpoint + wGreedy + wCurrent + wRandom then
        ⟨.random, false⟩
      else ⟨.greedy, true⟩

/-! ### Opponent action (`selfplay.py`, `_get_opponent_action`) -/

/-- `np.where(mask)[0]`: the indices at which the mask is true, ascending. -/
def legalIndices (mask : List Bool) : List Nat :=
  (List.range mask.length).filter (fun i => mask.getD i false)

/-- Mirror of `SelfPlayEnv._get_opponent_action` (selfplay.py lines
234-251).  `opponentModel` is `self._current_opponent_model`: `none` when no
model is set (random opponent), otherwise a `predict` function whose
failure (`Except.error`) models a raised exception.  `randChoice` models
`np.random.choice` over the legal indices.  NOTE the source wraps the
`predict` call in no try/except: a prediction failure propagates. -/
def getOpponentAction (opponentModel : Option (List Bool → Except String Nat))
    (randChoice : List Nat → Nat) (opponentMask : List Bool) :
    Except String Nat :=
  match opponentModel with
  | none =>
    let legalActions := legalIndices opponentMask
    if legalActions.length = 0 then .ok 0
    else .ok (randChoice legalActions)
  | some predict => predict opponentMask

/-! ### Opponent-turn loop (`selfplay.py`, `_handle_opponent_priority`) -/

/-- A server game-state response as `_update_state` / the loop read it:
`info["priorityPlayer"]` (defaulting to `"player"` is resolved upstream, so
the field holds the read value), `done`, `truncated`, `reward`, and the
`actionMask` used to refresh `_legal_action_mask`. -/
structure GameResp where
  priorityPlayer : String
  done : Bool
  truncated : Bool
  reward : ℚ
  actionMask : List Bool
deriving DecidableEq

/-- The `while priority == "opponent" and not done` loop of
`_handle_opponent_priority` (selfplay.py lines 303-320), run against a
scripted bridge: `masks` are the successive `get_opponent_actions`
responses and `steps` the successive `opponent_step` responses, consumed
in order (a call past the end of its script is an error — the scripts were
exhausted).  `getAct` is `_get_opponent_action`, whose failure propagates.
Returns the final `_current_state` together with the list of opponent
actions submitted (its length is the number of `opponent_step` calls).
An empty opponent mask breaks out of the loop. -/
def oppLoop (getAct : List Bool → Except String Nat) :
    List (List Bool) → List GameResp → GameResp → List Nat →
    Except String (GameResp × List Nat)
  | [], _, st, acc =>
    if st.priorityPlayer = "opponent" ∧ st.done = false then
      .error "unscripted get_opponent_actions call"
    else .ok (st, acc)
  | m :: ms, steps, st, acc =>
    if st.priorityPlayer = "opponent" ∧ st.done = false then
      if m.any (· = true) = true then
        match getAct m with
        | .error e => .error e
        | .ok a =>
          match steps with
          | [] => .error "unscripted opponent_step call"
          | r :: rs => oppLoop getAct ms rs r (acc ++ [a])
      else .ok (st, acc)
    else .ok (st, acc)

/-- Result of `_handle_opponent_priority`: final `_current_state`, the
opponent actions submitted, and the refreshed player action mask when the
trailing `get_actions` call was made (`none` when the game was done). -/
structure HandleResult where
  finalState : GameResp
  oppActionsSubmitted : List Nat
  refreshedMask : Option (List Bool)
deriving DecidableEq

/-- Mirror of `SelfPlayEnv._handle_opponent_priority` (selfplay.py lines
295-327) for a non-`None` current state `st`: run the opponent-turn loop,
then, when the game is not done, refresh the player mask via `get_actions`
(scripted response `playerMaskResp`). -/
def handleOpponentPriority (getAct : List Bool → Except String Nat)
    (masks : List (List Bool)) (steps : List GameResp)
    (playerMaskResp : List Bool) (st : GameResp) :
    Except String HandleResult :=
  match oppLoop getAct masks steps st [] with
  | .error e => .error e
  | .ok (stFinal, acts) =>
    if stFinal.done = false then .ok ⟨stFinal, acts, some playerMaskResp⟩
    else .ok ⟨stFinal, acts, none⟩

/-! ### Player step (`selfplay.py` `step` and `env.py` `step`) -/

/-- `np.where(mask)[0][0]`: the first (lowest) legal index, when any. -/
def firstLegal : List Bool → Option Nat
  | [] => none
  | b :: bs => if b then some 0 else (firstLegal bs).map (· + 1)

/-- A response of `POST /game/{id}/step` as `ManaCoreBattleEnv` reads it. -/
structure StepResp where
  reward : ℚ
  done : Bool
  truncated : Bool
  actionMask : List Bool
deriving DecidableEq

/-- Outcome of `ManaCoreBattleEnv.step`: the action submitted through
`bridge.step` (`none` when no bridge call was made) and the returned
`(reward, terminated, truncated)`. -/
structure BattleStepResult where
  bridgeCall : Option Nat
  reward : ℚ
  terminated : Bool
  truncated : Bool
deriving DecidableEq

/-- Mirror of `ManaCoreBattleEnv.step` (env.py lines 156-200) after a
successful reset: validate the action against `_legal_action_mask`
(illegal indices fall back to the first legal one; with no legal action a
synthetic `(-1.0, terminated, not truncated)` transition is returned with
no bridge call), then submit through the bridge oracle `bridgeStep`. -/
def battleEnvStep (bridgeStep : Nat → StepResp) (legalActionMask : List Bool)
    (action : Nat) : BattleStepResult :=
  if legalActionMask.getD action false = true then
    let r := bridgeStep action
    ⟨some action, r.reward, r.done, r.truncated⟩
  else
    match firstLegal legalActionMask with
    | none => ⟨none, -1, true, false⟩
    | some i =>
      let r := bridgeStep i
      ⟨some i, r.reward, r.done, r.truncated⟩

/-- Outcome of `SelfPlayEnv.step`: the player action submitted through
`bridge.step` (`none` when no bridge call was made), the opponent actions
submitted through `opponent_step` during the coordination loop, and the
returned `(reward, terminated, truncated)`. -/
structure SelfStepResult where
  playerBridgeCall : Option Nat
  oppActionsSubmitted : List Nat
  reward : ℚ
  terminated : Bool
  truncated : Bool
deriving DecidableEq

/-- Shared tail of `SelfPlayEnv.step` (selfplay.py lines 347-362) once a
legal action `a` has been resolved: submit it, and when the response is
not done and the opponent is not server-side, run the opponent-turn loop;
the returned reward/terminated/truncated are read from the final
`_current_state`. -/
def selfPlayStepSubmit (bridgeStep : Nat → GameResp) (useServerOpponent : Bool)
    (getAct : List Bool → Except String Nat) (oppMasks : List (List Bool))
    (oppSteps : List GameResp) (playerMaskResp : List Bool) (a : Nat) :
    Except String SelfStepResult :=
  let response := bridgeStep a
  if response.done = false ∧ useServerOpponent = false then
    match handleOpponentPriority getAct oppMasks oppSteps playerMaskResp
        response with
    | .error e => .error e
    | .ok hr =>
      .ok ⟨some a, hr.oppActionsSubmitted, hr.finalState.reward,
        hr.finalState.done, hr.finalState.truncated⟩
  else .ok ⟨some a, [], response.reward, response.done, response.truncated⟩

/-- Mirror of `SelfPlayEnv.step` (selfplay.py lines 329-362) after a
successful reset: the same action validation as `ManaCoreBattleEnv.step`
(selfplay.py lines 334-345), then the submit/coordination tail. -/
def selfPlayStep (bridgeStep : Nat → GameResp) (useServerOpponent : Bool)
    (getAct : List Bool → Except String Nat) (oppMasks : List (List Bool))
    (oppSteps : List GameResp) (playerMaskResp : List Bool)
    (legalActionMask : List Bool) (action : Nat) :
    Except String SelfStepResult :=
  if legalActionMask.getD action false = true then
    selfPlayStepSubmit bridgeStep useServerOpponent getAct oppMasks oppSteps
      playerMaskResp action
  else
    match firstLegal legalActionMask with
    | none => .ok ⟨none, [], -1, true, false⟩
    | some i =>
      selfPlayStepSubmit bridgeStep useServerOpponent getAct oppMasks oppSteps
        playerMaskResp i

/-! ### Observation sanitization (`env.py` and `selfplay.py`,
`_get_observation`) -/

/-- A raw float feature value from the server: finite (modelled as a
rational) or one of the non-finite IEEE values NaN, +Inf, -Inf. -/
inductive FVal where
  | fin (q : ℚ)
  | nan
  | posInf
  | negInf
deriving DecidableEq

/-- `np.nan_to_num(x, nan=nanV, posinf=posV, neginf=negV)` on one value. -/
def nanToNum (nanV posV negV : ℚ) : FVal → ℚ
  | .fin q => q
  | .nan => nanV
  | .posInf => posV
  | .negInf => negV

/-- `np.clip(x, lo, hi)` on one (finite) value. -/
def clipQ (lo hi q : ℚ) : ℚ :=
  min (max q lo) hi

/-- Mirror of `ManaCoreBattleEnv._get_observation` (env.py lines 208-222):
`none` models `_current_state is None` (25 zeros); otherwise the raw
feature vector is passed through `np.nan_to_num(nan=0.0, posinf=1.0,
neginf=-1.0)` and then `np.clip(-1.0, 1.0)`.  Every produced value is a
finite `FVal.fin`. -/
def battleGetObservation (state : Option (List FVal)) : List FVal :=
  match state with
  | none => List.replicate 25 (.fin 0)
  | some features =>
    features.map (fun v => .fin (clipQ (-1) 1 (nanToNum 0 1 (-1) v)))

/-- Mirror of `SelfPlayEnv._get_observation` (selfplay.py lines 370-382):
`none` models `_current_state is None`; an empty feature list also yields
36 zeros; otherwise `np.nan_to_num(nan=0.0, posinf=2.0, neginf=-1.0)`
followed by `np.clip(-1.0, 2.0)`. -/
def selfPlayGetObservation (state : Option (List FVal)) : List FVal :=
  match state with
  | none => List.replicate 36 (.fin 0)
  | some features =>
    if features.length = 0 then List.replicate 36 (.fin 0)
    else features.map (fun v => .fin (clipQ (-1) 2 (nanToNum 0 2 (-1) v)))

/-- An observation entry is a finite value within `[lo, hi]`. -/
def finiteInBounds (lo hi : ℚ) : FVal → Bool
  | .fin q => decide (lo ≤ q) && decide (q ≤ hi)
  | .nan => false
  | .posInf => false
  | .negInf => false

/-! ### Concrete scenario states -/

/-- A demonstration stage in the style of `STANDARD_CURRICULUM`
(curriculum.py lines 25-50). -/
def demoStage : CurriculumStage :=
  ⟨"Stage 1: Beat Random", "random", 50000, 9/10, 50, "demo"⟩

/-- A scheduler that has passed its final stage (index = number of
stages), i.e. `is_complete` holds. -/
def completeState : CurriculumState :=
  { initScheduler [demoStage] false with currentStageIdx := 1 }

/-- A scheduler sitting at the last stage of a one-stage curriculum, with
a callback set and a non-empty rolling window. -/
def lastStageState : CurriculumState :=
  { curriculum := [demoStage]
    currentStageIdx := 0
    hasCallback := true
    stageWins := [1]
    stageGames := [2]
    stageTimesteps := [10]
    recentResults := [true, false]
    windowSize := 100 }

/-- A scheduler at the first of two stages, with a callback set and a
non-empty rolling window. -/
def midStageState : CurriculumState :=
  { initScheduler [demoStage, demoStage] true with recentResults := [true] }

/-- The promotion-scenario stage: `min_games_to_advance = 2`,
`target_win_rate = 0.5`. -/
def c3Stage : CurriculumStage :=
  ⟨"promotion scenario", "random", 1000, 1/2, 2, "demo"⟩

/-- The promotion scenario after recording outcomes `[win, loss]`. -/
def c3WinLoss : CurriculumState :=
  recordGame (recordGame (initScheduler [c3Stage] false) true 0) false 0

/-- The promotion scenario after recording outcomes `[loss, loss]`. -/
def c3LossLoss : CurriculumState :=
  recordGame (recordGame (initScheduler [c3Stage] false) false 0) false 0

/-! ### Helper lemmas -/

theorem evictOldest_length_le (n : Nat) :
    ∀ l : List String, (evictOldest n l).length ≤ n
  | [] => by simp [evictOldest]
  | p :: ps => by
    rw [evictOldest]
    split
    · exact evictOldest_length_le n ps
    · next h => simpa using Nat.le_of_not_lt h

theorem evictOldest_suffix (n : Nat) :
    ∀ l : List String, evictOldest n l <:+ l
  | [] => List.suffix_refl _
  | p :: ps => by
    rw [evictOldest]
    split
    · exact (evictOldest_suffix n ps).trans (List.suffix_cons p ps)
    · exact List.suffix_refl _

theorem firstLegal_is_first :
    ∀ (mask : List Bool) (i : Nat), firstLegal mask = some i →
      mask.getD i false = true ∧ ∀ j, j < i → mask.getD j false = false
  | [], i, h => by simp [firstLegal] at h
  | b :: bs, i, h => by
    rw [firstLegal] at h
    by_cases hb : b = true
    · rw [if_pos hb] at h
      cases h
      exact ⟨hb, fun j hj => absurd hj (Nat.not_lt_zero j)⟩
    · rw [if_neg hb] at h
      rcases Option.map_eq_some'.mp h with ⟨k, hk, rfl⟩
      obtain ⟨h1, h2⟩ := firstLegal_is_first bs k hk
      refine ⟨h1, fun j hj => ?_⟩
      cases j with
      | zero => simpa using Bool.eq_false_iff.mpr hb
      | succ j =>
        exact h2 j (Nat.lt_of_succ_lt_succ hj)

theorem selfPlayStepSubmit_call (sStep : Nat → GameResp) (useSrv : Bool)
    (getAct : List Bool → Except String Nat) (oppMasks : List (List Bool))
    (oppSteps : List GameResp) (pmr : List Bool) (a : Nat) :
    ∀ r, selfPlayStepSubmit sStep useSrv getAct oppMasks oppSteps pmr a =
        .ok r → r.playerBridgeCall = some a := by
  intro r h
  rw [selfPlayStepSubmit] at h
  by_cases hc : (sStep a).done = false ∧ useSrv = false
  · rw [if_pos hc] at h
    rcases hH : handleOpponentPriority getAct oppMasks oppSteps pmr (sStep a)
      with e | hr
    · rw [hH] at h; exact absurd h (by simp)
    · rw [hH] at h
      cases h
      rfl
  · rw [if_neg hc] at h
    cases h
    rfl

theorem finiteInBounds_clip {lo hi : ℚ} (h : lo ≤ hi) (q : ℚ) :
    finiteInBounds lo hi (.fin (clipQ lo hi q)) = true := by
  simp only [finiteInBounds, clipQ, Bool.and_eq_true, decide_eq_true_eq]
  exact ⟨le_min (le_max_right q lo) h, min_le_right _ _⟩

/-! ### Claim theorems -/

/-- C10: once the curriculum is complete (stage index equals the number of
stages), `record_game` is a no-op: the stage index, all per-stage
win/game/timestep counters, and the rolling window are left unchanged. -/
theorem record_game_complete_is_noop (s : CurriculumState) (won : Bool)
    (timesteps : Nat) (h : isComplete s = true) :
    recordGame s won timesteps = s := by
  simp [recordGame, h]

/-- Witness for C10 at a concrete completed scheduler. -/
theorem record_game_complete_is_noop_witness :
    recordGame completeState true 7 = completeState :=
  record_game_complete_is_noop completeState true 7 (by decide)

/-- C7 counterexample: `advance()` on a scheduler at the last stage moves
the index to N, but it does NOT clear the rolling window and does NOT
invoke the stage-change callback even though one is set — contradicting
the claim that the window is cleared and the callback invoked in every
case including the move to N. -/
theorem advance_last_stage_counterexample :
    (advance lastStageState).state.currentStageIdx = 1 ∧
    (advance lastStageState).state.recentResults = [true, false] ∧
    (advance lastStageState).callbackInvoked = false ∧
    lastStageState.hasCallback = true ∧
    lastStageState.recentResults ≠ [] :=
  ⟨rfl, rfl, rfl, rfl, by decide⟩

/-- C7 (amended): `advance()` on a scheduler below the last stage moves to
index+1, clears the rolling window, returns true, and invokes the callback
exactly when one is set; when already at the last stage it moves the index
to N (the number of stages, marking completion), returns false, and leaves
the rolling window unchanged without invoking the callback. -/
theorem curriculum_advance_spec (s : CurriculumState) :
    (s.currentStageIdx + 1 < s.curriculum.length →
      (advance s).state.currentStageIdx = s.currentStageIdx + 1 ∧
      (advance s).state.recentResults = [] ∧
      (advance s).advanced = true ∧
      (advance s).callbackInvoked = s.hasCallback) ∧
    (s.curriculum.length ≤ s.currentStageIdx + 1 →
      (advance s).state.currentStageIdx = s.curriculum.length ∧
      (advance s).state.recentResults = s.recentResults ∧
      (advance s).advanced = false ∧
      (advance s).callbackInvoked = false) := by
  constructor
  · intro h
    have hg : ¬(s.curriculum.length - 1 ≤ s.currentStageIdx) := by omega
    simp [advance, hg]
  · intro h
    have hg : s.curriculum.length - 1 ≤ s.currentStageIdx := by omega
    simp [advance, hg]

/-- Witness for C7 (amended) at concrete mid-stage and last-stage
schedulers. -/
theorem curriculum_advance_spec_witness :
    ((advance midStageState).state.currentStageIdx = 1 ∧
      (advance midStageState).state.recentResults = [] ∧
      (advance midStageState).advanced = true ∧
      (advance midStageState).callbackInvoked = midStageState.hasCallback) ∧
    (advance lastStageState).state.recentResults =
      lastStageState.recentResults :=
  ⟨(curriculum_advance_spec midStageState).1 (by decide),
    ((curriculum_advance_spec lastStageState).2 (by decide)).2.1⟩

/-- C5: `add_checkpoint` leaves the pool unchanged when the file is
missing; when the file exists the path is appended and the oldest entries
are evicted so that the result has length at most `pool_size` and is a
suffix of the old pool with the path appended; inserting existing
checkpoints A, B, C into a pool of capacity 2 yields exactly [B, C]. -/
theorem add_checkpoint_spec (fileExists : String → Bool) (poolSize : Nat)
    (pool : List String) (path : String) :
    (fileExists path = false → addCheckpoint fileExists poolSize pool path = pool) ∧
    (fileExists path = true →
      (addCheckpoint fileExists poolSize pool path).length ≤ poolSize ∧
      addCheckpoint fileExists poolSize pool path <:+ pool ++ [path]) ∧
    addCheckpoint (fun _ => true) 2
      (addCheckpoint (fun _ => true) 2
        (addCheckpoint (fun _ => true) 2 [] "A") "B") "C" = ["B", "C"] := by
  refine ⟨fun h => by simp [addCheckpoint, h], fun h => ?_, by rfl⟩
  rw [addCheckpoint, h]
  simp only [Bool.true_eq_false, if_false]
  exact ⟨evictOldest_length_le _ _, evictOldest_suffix _ _⟩

/-- Witness for C5 at concrete pools. -/
theorem add_checkpoint_spec_witness :
    ((addCheckpoint (fun _ => true) 2 ["A", "B"] "C").length ≤ 2 ∧
      addCheckpoint (fun _ => true) 2 ["A", "B"] "C" <:+ ["A", "B", "C"]) ∧
    addCheckpoint (fun _ => false) 2 ["A"] "B" = ["A"] :=
  ⟨(add_checkpoint_spec (fun _ => true) 2 ["A", "B"] "C").2.1 rfl,
    (add_checkpoint_spec (fun _ => false) 2 ["A"] "B").1 rfl⟩

/-- C3: on a non-complete scheduler, `should_advance()` is true iff the
active stage's game count is at least `min_games_to_advance` and the win
rate over the last 50 recorded outcomes is at least `target_win_rate`. -/
theorem should_advance_iff (s : CurriculumState) (h : isComplete s = false) :
    shouldAdvance s = true ↔
      ((s.curriculum.getD s.currentStageIdx default).minGamesToAdvance ≤
          s.stageGames.getD s.currentStageIdx 0 ∧
        (s.curriculum.getD s.currentStageIdx default).targetWinRate ≤
          getWinRate s (some 50)) := by
  rw [shouldAdvance, h]
  simp only [Bool.false_eq_true, if_false]
  split
  · next hlt =>
    simp only [Bool.false_eq_true, false_iff, not_and]
    intro hge
    exact absurd hge (Nat.not_le_of_lt hlt)
  · next hge =>
    simp only [decide_eq_true_eq]
    exact ⟨fun hr => ⟨Nat.le_of_not_lt hge, hr⟩, fun ⟨_, hr⟩ => hr⟩

/-- Witness for C3: with `min_games_to_advance = 2` and
`target_win_rate = 0.5`, recording [win, loss] makes `should_advance()`
true and recording [loss, loss] makes it false. -/
theorem should_advance_iff_witness :
    shouldAdvance c3WinLoss = true ∧ shouldAdvance c3LossLoss = false := by
  constructor
  · refine (should_advance_iff c3WinLoss (by decide)).mpr ⟨by decide, ?_⟩
    norm_num [c3WinLoss, c3Stage, initScheduler, recordGame, isComplete,
      getWinRate]
  · norm_num [c3LossLoss, c3Stage, initScheduler, recordGame, isComplete,
      getWinRate, shouldAdvance]

/-- C9 counterexample: with the policy-loading library unavailable
(`sb3Available = false`) and a strictly positive random weight, every
possible draw still selects the greedy (engine-native) opponent — the
function returns before any weighted draw, so no draw ever selects the
uniform-random opponent, contradicting the claim. -/
theorem select_opponent_no_sb3_counterexample :
    (fun roll => (selectOpponent false 5 1 1 1 1 true roll true).opponentType)
      = fun _ => OpponentType.greedy :=
  funext fun _ => rfl

/-- C9 (amended): when the policy-loading capability is unavailable,
`_select_opponent` does not perform a weighted draw at all: it
unconditionally selects the engine-native ('greedy') opponent with
server-side control, for every pool size, weight configuration and draw. -/
theorem select_opponent_no_sb3_greedy (poolLen : Nat)
    (wc wg wcur wr : ℚ) (cms : Bool) (roll : ℚ) (ld : Bool) :
    selectOpponent false poolLen wc wg wcur wr cms roll ld =
      ⟨.greedy, true⟩ :=
  rfl

/-- C8 counterexample: when the selected opponent model's prediction
fails, `_get_opponent_action` propagates the failure to the caller (there
is no try/except around `predict`), instead of substituting a uniformly
random legal action — contradicting the claim. -/
theorem get_opponent_action_failure_counterexample :
    getOpponentAction (some fun _ => .error "predict failed")
      (fun l => l.headD 0) [true, true] = .error "predict failed" :=
  rfl

/-- C8 (amended): a failure of the selected opponent model's prediction
propagates out of `_get_opponent_action` unchanged (no local fallback);
a uniformly random legal action is used only when no opponent model is
set, and with no model and no legal action the action is 0. -/
theorem get_opponent_action_spec (randChoice : List Nat → Nat)
    (mask : List Bool) :
    (∀ predict, getOpponentAction (some predict) randChoice mask =
      predict mask) ∧
    ((legalIndices mask).length = 0 →
      getOpponentAction none randChoice mask = .ok 0) ∧
    ((legalIndices mask).length ≠ 0 →
      getOpponentAction none randChoice mask =
        .ok (randChoice (legalIndices mask))) :=
  ⟨fun _ => rfl,
    fun h => by simp [getOpponentAction, h],
    fun h => by simp [getOpponentAction, h]⟩

/-- Witness for C8 (amended) at concrete masks. -/
theorem get_opponent_action_spec_witness :
    getOpponentAction none (fun l => l.headD 0) [false, true] = .ok 1 ∧
    getOpponentAction none (fun l => l.headD 0) [false, false] = .ok 0 :=
  ⟨(get_opponent_action_spec (fun l => l.headD 0) [false, true]).2.2
      (by decide),
    (get_opponent_action_spec (fun l => l.headD 0) [false, false]).2.1
      (by decide)⟩

/-- C4: whenever every opponent category other than the engine-native
greedy bot has effective weight zero — the checkpoint weight zeroed or the
pool empty, the current-policy weight zeroed or no live reference, and the
random weight zero — `_select_opponent` selects the greedy opponent for
every possible draw (this covers both configured weights
`{checkpoint 0, greedy 1, current 0, random 0}` and the all-zero total). -/
theorem select_opponent_saturated_greedy (sb3 : Bool) (poolLen : Nat)
    (wc wg wcur wr : ℚ) (cms : Bool) (roll01 : ℚ) (ld : Bool)
    (hwg : 0 ≤ wg) (h0 : 0 ≤ roll01) (h1 : roll01 < 1)
    (hc : (if 0 < poolLen then wc else 0) = 0)
    (hcur : (if cms then wcur else 0) = 0)
    (hr : wr = 0) :
    (selectOpponent sb3 poolLen wc wg wcur wr cms roll01 ld).opponentType =
      .greedy := by
  cases sb3 with
  | false => rfl
  | true =>
    subst hr
    rw [selectOpponent]
    simp only [hc, hcur, add_zero, zero_add, Bool.true_eq_false, if_false]
    rcases eq_or_lt_of_le hwg with heq | hpos
    · rw [if_pos heq.symm]
    · rw [if_neg (ne_of_gt hpos)]
      have hroll0 : ¬(roll01 * wg < 0) :=
        not_lt.mpr (mul_nonneg h0 (le_of_lt hpos))
      rw [if_neg hroll0, if_pos (mul_lt_of_lt_one_left hpos h1)]

/-- Witness for C4: the configured weights
`{checkpoint 0, greedy 1, current 0, random 0}` and the all-zero-total
configuration (empty pool, no live reference, zero greedy/random weights)
both select greedy. -/
theorem select_opponent_saturated_greedy_witness :
    (selectOpponent true 3 0 1 0 0 true (1/2) true).opponentType =
      .greedy ∧
    (selectOpponent true 0 (3/10) 0 (2/10) 0 false (9/10) true).opponentType =
      .greedy :=
  ⟨select_opponent_saturated_greedy true 3 0 1 0 0 true (1/2) true
      (by norm_num) (by norm_num) (by norm_num) (by norm_num) rfl rfl,
    select_opponent_saturated_greedy true 0 (3/10) 0 (2/10) 0 false (9/10)
      true le_rfl (by norm_num) (by norm_num) (by norm_num) rfl rfl⟩

/-- C6: for every server state (including raw feature vectors containing
NaN, +Inf or -Inf), the observation produced by `_get_observation` contains
only finite values within the declared bounds: `[-1, 1]` for
`ManaCoreBattleEnv` and `[-1, 2]` for `SelfPlayEnv`. -/
theorem observation_sanitized (state : Option (List FVal)) :
    (battleGetObservation state).all (finiteInBounds (-1) 1) = true ∧
    (selfPlayGetObservation state).all (finiteInBounds (-1) 2) = true := by
  constructor
  · cases state with
    | none => decide
    | some features =>
      simp only [battleGetObservation, List.all_eq_true]
      intro v hv
      obtain ⟨q, _, rfl⟩ := List.mem_map.mp hv
      exact finiteInBounds_clip (by norm_num) _
  · cases state with
    | none => decide
    | some features =>
      rw [selfPlayGetObservation]
      split
      · decide
      · simp only [List.all_eq_true]
        intro v hv
        obtain ⟨q, _, rfl⟩ := List.mem_map.mp hv
        exact finiteInBounds_clip (by norm_num) _

/-- C1: for `ManaCoreBattleEnv.step` and `SelfPlayEnv.step` after a
successful reset — a legal action index is submitted to the bridge
unchanged; an illegal index with at least one legal action is replaced by
the first (lowest) legal index, which is submitted instead, with no
exception raised; with no legal action at all, both steps return a
synthetic terminal transition with reward -1, terminated true, truncated
false, and make no bridge call. -/
theorem step_action_fallback_spec (bStep : Nat → StepResp)
    (sStep : Nat → GameResp) (useSrv : Bool)
    (getAct : List Bool → Except String Nat) (oppMasks : List (List Bool))
    (oppSteps : List GameResp) (pmr : List Bool) (mask : List Bool)
    (action : Nat) :
    (mask.getD action false = true →
      (battleEnvStep bStep mask action).bridgeCall = some action ∧
      ∀ r, selfPlayStep sStep useSrv getAct oppMasks oppSteps pmr mask action
          = .ok r → r.playerBridgeCall = some action) ∧
    (∀ i, mask.getD action false = false → firstLegal mask = some i →
      (battleEnvStep bStep mask action).bridgeCall = some i ∧
      mask.getD i false = true ∧
      (∀ j, j < i → mask.getD j false = false) ∧
      ∀ r, selfPlayStep sStep useSrv getAct oppMasks oppSteps pmr mask action
          = .ok r → r.playerBridgeCall = some i) ∧
    (mask.getD action false = false → firstLegal mask = none →
      battleEnvStep bStep mask action = ⟨none, -1, true, false⟩ ∧
      selfPlayStep sStep useSrv getAct oppMasks oppSteps pmr mask action =
        .ok ⟨none, [], -1, true, false⟩) := by
  refine ⟨fun hlegal => ⟨?_, ?_⟩, fun i hill hfirst => ?_, fun hill hnone => ?_⟩
  · rw [battleEnvStep, if_pos hlegal]
  · rw [selfPlayStep, if_pos hlegal]
    exact selfPlayStepSubmit_call sStep useSrv getAct oppMasks oppSteps pmr
      action
  · obtain ⟨h1, h2⟩ := firstLegal_is_first mask i hfirst
    refine ⟨?_, h1, h2, ?_⟩
    · rw [battleEnvStep, hill]
      simp only [Bool.false_eq_true, if_false, hfirst]
    · rw [selfPlayStep, hill]
      simp only [Bool.false_eq_true, if_false, hfirst]
      exact selfPlayStepSubmit_call sStep useSrv getAct oppMasks oppSteps pmr i
  · constructor
    · rw [battleEnvStep, hill]
      simp only [Bool.false_eq_true, if_false, hnone]
    · rw [selfPlayStep, hill]
      simp only [Bool.false_eq_true, if_false, hnone]

/-- Witness for C1 at concrete masks: an illegal index 0 under mask
`[false, true]` falls back to index 1 in both environments, and the
all-false mask yields the synthetic terminal transition with no bridge
call in both environments. -/
theorem step_action_fallback_spec_witness :
    (battleEnvStep (fun _ => ⟨0, false, false, []⟩) [false, true] 0).bridgeCall
      = some 1 ∧
    (∀ r, selfPlayStep (fun _ => ⟨"player", true, false, 0, []⟩) true
        (fun _ => .ok 0) [] [] [] [false, true] 0 = .ok r →
      r.playerBridgeCall = some 1) ∧
    battleEnvStep (fun _ => ⟨0, false, false, []⟩) [false, false] 0 =
      ⟨none, -1, true, false⟩ ∧
    selfPlayStep (fun _ => ⟨"player", true, false, 0, []⟩) true
      (fun _ => .ok 0) [] [] [] [false, false] 0 =
      .ok ⟨none, [], -1, true, false⟩ := by
  have hfb := (step_action_fallback_spec (fun _ => ⟨0, false, false, []⟩)
    (fun _ => ⟨"player", true, false, 0, []⟩) true (fun _ => .ok 0) [] [] []
    [false, true] 0).2.1 1 rfl rfl
  have hterm := (step_action_fallback_spec (fun _ => ⟨0, false, false, []⟩)
    (fun _ => ⟨"player", true, false, 0, []⟩) true (fun _ => .ok 0) [] [] []
    [false, false] 0).2.2 rfl rfl
  exact ⟨hfb.1, hfb.2.2.2, hterm.1, hterm.2⟩

/-- C2: the opponent-turn loop of `_handle_opponent_priority` returns
immediately (zero opponent steps) whenever the reported priority is not
the opponent's or the game is done; it breaks immediately (zero further
opponent steps) when the opponent's legal-action mask contains no legal
action; and against a scripted engine whose responses keep opponent
priority once and then report done, it makes exactly two `opponent_step`
bridge calls (the submitted-action log is `[0, 0]`, of length two) and
exits. -/
theorem opponent_turn_loop_spec :
    (∀ (getAct : List Bool → Except String Nat) (masks : List (List Bool))
        (steps : List GameResp) (st : GameResp) (acc : List Nat),
      ¬(st.priorityPlayer = "opponent" ∧ st.done = false) →
      oppLoop getAct masks steps st acc = .ok (st, acc)) ∧
    (∀ (getAct : List Bool → Except String Nat) (m : List Bool)
        (ms : List (List Bool)) (steps : List GameResp) (st : GameResp)
        (acc : List Nat),
      st.priorityPlayer = "opponent" → st.done = false →
      m.any (· = true) = false →
      oppLoop getAct (m :: ms) steps st acc = .ok (st, acc)) ∧
    handleOpponentPriority (fun _ => .ok 0) [[true], [true]]
        [⟨"opponent", false, false, 0, [true]⟩,
          ⟨"player", true, false, 1, []⟩] [true]
        ⟨"opponent", false, false, 0, [true]⟩ =
      .ok ⟨⟨"player", true, false, 1, []⟩, [0, 0], none⟩ := by
  refine ⟨?_, ?_, by rfl⟩
  · intro getAct masks steps st acc h
    cases masks <;> simp only [oppLoop, if_neg h]
  · intro getAct m ms steps st acc h1 h2 h3
    rw [oppLoop, if_pos ⟨h1, h2⟩, h3]
    simp

/-- Witness for C2 at concrete states: a player-priority state exits the
loop with no opponent step, and an opponent-priority state with an empty
opponent mask breaks with no opponent step. -/
theorem opponent_turn_loop_spec_witness :
    oppLoop (fun _ => .ok 0) [[true]] [] ⟨"player", false, false, 0, []⟩ [] =
      .ok (⟨"player", false, false, 0, []⟩, []) ∧
    oppLoop (fun _ => .ok 0) [[false]] [] ⟨"opponent", false, false, 0, []⟩ []
      = .ok (⟨"opponent", false, false, 0, []⟩, []) :=
  ⟨opponent_turn_loop_spec.1 (fun _ => .ok 0) [[true]] []
      ⟨"player", false, false, 0, []⟩ [] (by simp),
    opponent_turn_loop_spec.2.1 (fun _ => .ok 0) [false] [] []
      ⟨"opponent", false, false, 0, []⟩ [] rfl rfl rfl⟩

end ManaCore
